import Mathlib

/-!
Shallow embedding of the `testrules` test runner (testrules.py) and proofs
of the spec claims about it.

Conventions of the embedding:
- Python strings are Lean `String`; Python string comparison and sorting are
  the lexicographic order on code points, matching the `LinearOrder String`
  instance.
- Python `None`-able values are `Option`.
- File-system effects (`os.path.exists`, `glob.glob(..., recursive=True)`)
  are a `FileSystem` record of pure functions, passed explicitly.
- Wall-clock durations are abstract `Nat` tick counts passed explicitly.
- The unittest framework result consumed by the executor is modelled by the
  triple (wasSuccessful, failures, errors); each failure/error entry
  `(test, traceback_text)` is modelled by its traceback text, because the
  code only ever reads `entry[1]`.
-/

namespace Testrules

/-! ### Data model -/

/-- TestMethod (testrules.py lines 49-64): a single discovered test. -/
structure TestMethod where
  name : String
  module : String
  class_name : Option String
  file_path : Option String
deriving DecidableEq, Repr

/-- full_name as computed in TestMethod.__init__ (line 58). -/
def TestMethod.full_name (t : TestMethod) : String :=
  match t.class_name with
  | some c => t.module ++ "." ++ c ++ "." ++ t.name
  | none => t.module ++ "." ++ t.name

/-- MethodResult (lines 67-82): outcome of one execution. `status` is the
Python string "pass", "fail" or "error"; `error`/`traceback_str` are `None`
or strings. -/
structure MethodResult where
  method : TestMethod
  status : String
  duration : Nat
  error : Option String
  traceback_str : Option String
deriving DecidableEq, Repr

/-- TestResult (lines 85-147): aggregate of a run. `start_time`/`end_time`
are abstract optional tick counts. -/
structure TestResult where
  total : Nat
  passed : Nat
  failed : Nat
  errors : Nat
  method_results : List MethodResult
  duration : Nat
  start_time : Option Nat
  end_time : Option Nat

/-- TestResult.__init__ (lines 89-97): all counters zero, no results. -/
def TestResult.new : TestResult :=
  { total := 0, passed := 0, failed := 0, errors := 0,
    method_results := [], duration := 0, start_time := none, end_time := none }

/-- TestResult.add_result (lines 99-114): append the result, bump `total`,
and bump exactly the counter selected by the status string (the source is
an if/elif chain on `method_result.status`). -/
def TestResult.add_result (tr : TestResult) (mr : MethodResult) : TestResult :=
  { tr with
    method_results := tr.method_results ++ [mr]
    total := tr.total + 1
    passed := if mr.status = "pass" then tr.passed + 1 else tr.passed
    failed := if mr.status = "fail" then tr.failed + 1 else tr.failed
    errors := if mr.status = "error" then tr.errors + 1 else tr.errors }

/-- TestResult.get_success_rate (lines 126-135), with the percentage kept
as a rational number. -/
def TestResult.get_success_rate (tr : TestResult) : ℚ :=
  if tr.total = 0 then 0 else (tr.passed : ℚ) / (tr.total : ℚ) * 100

/-! ### Executor: run_single_test_method (lines 572-681) -/

/-- Model of the unittest framework result object as consumed by the code:
`result.wasSuccessful()`, `result.failures`, `result.errors`. Each entry of
the failure/error lists is represented by its traceback text (`entry[1]`),
the only component the code reads. -/
structure FrameworkResult where
  successful : Bool
  failures : List String
  errors : List String
deriving DecidableEq, Repr

/-- Everything effectful that happens before the result mapping in
run_single_test_method: the module import can fail (lines 586-596), the
suite can run to a framework result (lines 620-621), or an exception can
escape the runner and be caught by the outer handler (lines 670-681). -/
inductive RunOutcome where
  | importFailed (msg : String)
  | ran (result : FrameworkResult)
  | raised (msg : String) (trace : String)
deriving DecidableEq, Repr

/-- run_single_test_method (lines 572-681), as a function of the test
method, the measured duration, and the effect outcome. The `ran` branch is
the literal if/elif mapping of lines 626-668; note `error_msg =
str(failure[1])` and `traceback_str = failure[1]` both denote the first
entry's traceback text. -/
def run_single_test_method (m : TestMethod) (d : Nat) (o : RunOutcome) : MethodResult :=
  match o with
  | .importFailed msg =>
      { method := m, status := "error", duration := d,
        error := some ("Failed to import module: " ++ msg), traceback_str := none }
  | .ran r =>
      if r.successful then
        { method := m, status := "pass", duration := d,
          error := none, traceback_str := none }
      else
        match r.failures with
        | f :: _ =>
            { method := m, status := "fail", duration := d,
              error := some f, traceback_str := some f }
        | [] =>
            match r.errors with
            | e :: _ =>
                { method := m, status := "error", duration := d,
                  error := some e, traceback_str := some e }
            | [] =>
                { method := m, status := "error", duration := d,
                  error := some "Unknown test result state", traceback_str := none }
  | .raised msg trace =>
      { method := m, status := "error", duration := d,
        error := some msg, traceback_str := some trace }

/-! ### Paths

Python strings that participate in path joining, glob patterns, substring
tests, or lexicographic sorting are modelled as their sequences of code
points, so that every operation on them is structurally computable; the
order on `Path` is the lexicographic order, exactly Python string
comparison. Strings on which the program only ever tests equality
(status labels, diagnostic messages, test-type and group names) stay
`String`. -/

/-- A Python string viewed as its list of code points. -/
abbrev Path := List Char

/-- Python str.startswith for code-point lists. -/
def charsStartWith : Path → Path → Bool
  | _, [] => true
  | [], _ :: _ => false
  | c :: s, p :: ps => c == p && charsStartWith s ps

/-- Python substring test `pat in s`. -/
def pathContains (s pat : Path) : Bool :=
  match s with
  | [] => charsStartWith [] pat
  | c :: t => charsStartWith (c :: t) pat || pathContains t pat

/-- os.path.join for two POSIX components: an absolute second component
replaces the first; otherwise a separator is inserted unless the first is
empty or already ends in one. -/
def path_join (a b : Path) : Path :=
  if charsStartWith b ['/'] then b
  else if a.isEmpty || a.getLast? == some '/' then a ++ b
  else a ++ '/' :: b

/-- sorted(list(set(xs))) on paths: drop duplicates, then sort in the
lexicographic order; the result is the unique ascending enumeration of
the distinct elements, which is what Python's stable sort of the set
produces. -/
def sortedDedup (xs : List Path) : List Path :=
  List.insertionSort (fun a b => a ≤ b) xs.dedup

/-! ### Config (lines 150-220) and load_config (lines 1089-1115) -/

/-- Default test_patterns dictionary (Config.__init__, lines 156-161),
kept as an ordered association list like a Python dict. -/
def default_test_patterns : List (String × List Path) :=
  [("unit", ["test_*.py".data, "*_test.py".data]),
   ("integration", ["integration_test_*.py".data, "*_integration_test.py".data]),
   ("e2e", ["e2e_test_*.py".data, "*_e2e_test.py".data]),
   ("regression", ["regression_test_*.py".data, "*_regression_test.py".data])]

/-- The relevant keys of the parsed JSON configuration object; a `none`
field models an absent key, so `Config.__init__`'s `data.get(key, default)`
becomes `Option.getD`. Unknown extra keys are ignored by `__init__` and
are not modelled. -/
structure ConfigData where
  test_patterns : Option (List (String × List Path))
  test_groups : Option (List (String × List Path))
  coverage_enabled : Option Bool
  html_coverage : Option Bool
  html_coverage_dir : Option String
deriving DecidableEq

/-- Empty JSON object `\x7b\x7d`: every key absent. -/
def ConfigData.empty : ConfigData :=
  { test_patterns := none, test_groups := none,
    coverage_enabled := none, html_coverage := none, html_coverage_dir := none }

/-- Config (lines 150-165): the effective configuration after defaults. -/
structure Config where
  test_patterns : List (String × List Path)
  test_groups : List (String × List Path)
  coverage_enabled : Bool
  html_coverage : Bool
  html_coverage_dir : String
deriving DecidableEq

/-- Config.__init__ (lines 154-165): each field is `data.get(key, default)`. -/
def Config.ofData (d : ConfigData) : Config :=
  { test_patterns := d.test_patterns.getD default_test_patterns
    test_groups := d.test_groups.getD [("all", [])]
    coverage_enabled := d.coverage_enabled.getD true
    html_coverage := d.html_coverage.getD true
    html_coverage_dir := d.html_coverage_dir.getD "htmlcov" }

/-- Config() with no argument (data=None, so data becomes the empty dict). -/
def Config.default : Config := Config.ofData ConfigData.empty

/-- Config.get_test_types (lines 167-174): the dict keys in order. -/
def Config.get_test_types (c : Config) : List String :=
  c.test_patterns.map (fun p => p.1)

/-- Config.get_patterns_for_test_type (lines 176-186):
`test_patterns.get(test_type, [])`. -/
def Config.get_patterns_for_test_type (c : Config) (test_type : String) : List Path :=
  (c.test_patterns.lookup test_type).getD []

/-- Config.has_test_type (lines 188-198): `test_type in self.test_patterns`. -/
def Config.has_test_type (c : Config) (test_type : String) : Bool :=
  (c.test_patterns.lookup test_type).isSome

/-- Outcome of the file read and JSON parse performed by load_config:
the file can be absent (line 1105), parse as a JSON object (line 1102),
fail to parse (line 1108, json.JSONDecodeError — this is also what an
empty file produces, since an empty document is not valid JSON), or fail
to read at all (line 1112). -/
inductive ConfigLoadOutcome where
  | fileMissing
  | parsed (d : ConfigData)
  | parseError (msg : String)
  | ioError (msg : String)

/-- load_config (lines 1089-1115): every branch returns a Config; the
three failure branches print a warning and fall back to `Config()`. -/
def load_config (o : ConfigLoadOutcome) : Config :=
  match o with
  | .parsed d => Config.ofData d
  | .fileMissing => Config.default
  | .parseError _ => Config.default
  | .ioError _ => Config.default

/-! ### Discovery (lines 223-381) -/

/-- File-system oracle: `pathExists` is `os.path.exists`, `glob` is
`glob.glob(pattern, recursive=True)`. -/
structure FileSystem where
  pathExists : Path → Bool
  glob : Path → List Path

/-- get_test_files_by_type (lines 223-251): unknown type warns and yields
[]; otherwise each pattern is expanded as the recursive glob
`os.path.join(search_path, "**", pattern)` and the union is
deduplicated and sorted. -/
def get_test_files_by_type (fs : FileSystem) (test_type : String) (config : Config)
    (search_path : Path) : List Path :=
  if config.has_test_type test_type then
    sortedDedup ((config.get_patterns_for_test_type test_type).flatMap
      (fun pattern => fs.glob (path_join (path_join search_path "**".data) pattern)))
  else []

/-- get_all_test_files (lines 254-272): map each configured test type to
its files, keeping only types with a non-empty file list. -/
def get_all_test_files (fs : FileSystem) (config : Config) (search_path : Path) :
    List (String × List Path) :=
  config.get_test_types.filterMap (fun t =>
    let files := get_test_files_by_type fs t config search_path
    if files.isEmpty then none else some (t, files))

/-- The three candidate paths tried for one module name
(discover_files_by_modules, lines 290-294). -/
def module_candidates (name search_path : Path) : List Path :=
  [name ++ ".py".data,
   path_join search_path (name ++ ".py".data),
   path_join (path_join search_path "**".data) (name ++ ".py".data)]

/-- The inner candidate loop of discover_files_by_modules (lines 297-310):
a candidate containing "**" is expanded by recursive glob and, when the
match list is non-empty, all matches are taken and the loop breaks; any
other candidate is taken alone iff it exists. An empty result means the
`found` flag stayed False. -/
def try_candidates (fs : FileSystem) : List Path → List Path
  | [] => []
  | p :: rest =>
      if pathContains p "**".data then
        let matching := fs.glob p
        if matching.isEmpty then try_candidates fs rest else matching
      else
        if fs.pathExists p then [p] else try_candidates fs rest

/-- discover_files_by_modules (lines 275-316): concatenate the per-name
hits in order, then deduplicate and sort. -/
def discover_files_by_modules (fs : FileSystem) (module_names : List Path)
    (search_path : Path) : List Path :=
  sortedDedup (module_names.flatMap
    (fun name => try_candidates fs (module_candidates name search_path)))

/-- The names for which discover_files_by_modules prints
"Module file not found" (line 313): exactly those whose candidate loop
found nothing. -/
def module_warnings (fs : FileSystem) (module_names : List Path)
    (search_path : Path) : List Path :=
  module_names.filter
    (fun name => (try_candidates fs (module_candidates name search_path)).isEmpty)

/-- resolve_test_group (lines 319-336): an unknown group warns and yields
[]; otherwise the configured module list. -/
def resolve_test_group (group_name : String) (config : Config) : List Path :=
  match config.test_groups.lookup group_name with
  | none => []
  | some ms => ms

/-- Python truthiness of an optional list (`if modules:`). -/
def opt_list_truthy : Option (List Path) → Bool
  | some (_ :: _) => true
  | _ => false

/-- Python truthiness of an optional string (`elif group:`). -/
def opt_str_truthy : Option String → Bool
  | some s => s != ""
  | none => false

/-- discover_tests (lines 339-381): priority cascade explicit modules →
group → test type → all types, with Python truthiness on each guard. -/
def discover_tests (fs : FileSystem) (test_type : Option String)
    (modules : Option (List Path)) (group : Option String)
    (config : Config) (search_path : Path) : List Path :=
  if opt_list_truthy modules then
    discover_files_by_modules fs (modules.getD []) search_path
  else if opt_str_truthy group then
    let group_modules := resolve_test_group (group.getD "") config
    if group_modules.isEmpty then []
    else discover_files_by_modules fs group_modules search_path
  else if opt_str_truthy test_type then
    get_test_files_by_type fs (test_type.getD "") config search_path
  else
    sortedDedup ((get_all_test_files fs config search_path).flatMap (fun p => p.2))

/-! ### safe_import_module sys.path handling (lines 384-429) -/

/-- The sys.path value visible while `spec.loader.exec_module` runs
(lines 402-411): the directory of the file is prepended iff it is not
already present. -/
def safe_import_sys_path_during (path : List Path) (module_dir : Path) : List Path :=
  if module_dir ∈ path then path else module_dir :: path

/-- The sys.path value after safe_import_module returns, for a load that
reached the exec step (lines 402-416). The removal (`sys.path.remove`,
which drops the first occurrence) sits in a `finally` clause, so it runs
identically whether exec_module returned normally or raised; the branch
on `exec_raised` makes that explicit. When the directory was already
present, `path_added` is False and nothing is removed. The earlier exits
of safe_import_module (missing file, bad spec) occur before the insertion
and touch sys.path not at all. -/
def safe_import_sys_path_after (path : List Path) (module_dir : Path)
    (exec_raised : Bool) : List Path :=
  if module_dir ∈ path then path
  else
    match exec_raised with
    | false => (module_dir :: path).erase module_dir
    | true => (module_dir :: path).erase module_dir

/-! ### Lint and exit-code fragments of main (lines 1366-1382, 1454-1465) -/

/-- Exit code of the `lint` command (line 1370):
`return 1 if violation_count > 0 else 0`. The violation count is an
integer because run_lint returns -1 on backend unavailability or any
internal error (lines 1017-1019, 1061-1063). -/
def lint_command_exit (violation_count : Int) : Nat :=
  if violation_count > 0 then 1 else 0

/-- The lint_failed flag stored by the `check` command (line 1382):
`lint_failed = violation_count > 0`. -/
def check_lint_failed (violation_count : Int) : Bool :=
  violation_count > 0

/-- Final exit code of a test-running command (lines 1454-1465): 1 iff
any test failed, any test errored, or lint failed. -/
def final_exit (failed errors : Nat) (lint_failed : Bool) : Nat :=
  if failed > 0 || errors > 0 || lint_failed then 1 else 0

/-! ### Spec-side description of module discovery, and invariant predicates -/

/-- The per-name discovery procedure exactly as the spec words it (spec
4.2 strategy 1): try the path `name.py`, then the path
`searchPath/name.py`, then the recursive glob `searchPath/**/name.py`;
the first candidate that hits provides the emitted files. Written from
the spec sentence, to be compared against `try_candidates`, which is
written from the code. -/
def first_hit_cascade (fs : FileSystem) (name search_path : Path) : List Path :=
  let c1 := name ++ ".py".data
  let c2 := path_join search_path (name ++ ".py".data)
  let c3 := path_join (path_join search_path "**".data) (name ++ ".py".data)
  if fs.pathExists c1 then [c1]
  else if fs.pathExists c2 then [c2]
  else fs.glob c3

/-- A status string that add_result tallies into one of its counters. -/
def status_tallied (mr : MethodResult) : Prop :=
  mr.status = "pass" ∨ mr.status = "fail" ∨ mr.status = "error"

/-- The counter invariant of the spec:
total = passed + failed + errors = number of recorded results. -/
def counts_invariant (tr : TestResult) : Prop :=
  tr.total = tr.passed + tr.failed + tr.errors ∧
  tr.total = tr.method_results.length

/-! ### Concrete fixtures used by witnesses and counterexamples -/

/-- A concrete test method. -/
def mEx : TestMethod :=
  { name := "test_a", module := "mod", class_name := none, file_path := some "mod.py" }

/-- A concrete method result with a given status string. -/
def mrEx (st : String) : MethodResult :=
  { method := mEx, status := st, duration := 1, error := none, traceback_str := none }

/-- A concrete file system in which only the file mymod.py exists and no
glob matches anything. -/
def fsW : FileSystem :=
  { pathExists := fun p => p == "mymod.py".data
    glob := fun _ => [] }

/-- A concrete file system in which m.py exists and the recursive glob
for test_*.py under "." matches one other file. -/
def fsX : FileSystem :=
  { pathExists := fun p => p == "m.py".data
    glob := fun p => if p == "./**/test_*.py".data then ["./test_other.py".data] else [] }

/-- A concrete configuration whose test_groups maps the group "core" to
the single module "mymod". -/
def cfgW : Config :=
  { test_patterns := default_test_patterns
    test_groups := [("core", ["mymod".data])]
    coverage_enabled := true
    html_coverage := true
    html_coverage_dir := "htmlcov" }

/-- A concrete configuration whose test_groups maps the empty group name
to the single module "m". -/
def cfgX : Config :=
  { test_patterns := [("unit", ["test_*.py".data])]
    test_groups := [("", ["m".data])]
    coverage_enabled := true
    html_coverage := true
    html_coverage_dir := "htmlcov" }

/-! ### Theorems -/

/-- C1: for a framework result produced by running a single-method suite,
run_single_test_method maps it to a MethodResult as follows: successful
gives status pass with error and traceback absent; otherwise a present
failure entry gives status fail with error and traceback from the first
failure entry; otherwise a present error entry gives status error with
error and traceback from the first error entry; otherwise status error
with error "Unknown test result state". -/
theorem c1_framework_result_mapping (m : TestMethod) (d : Nat) (r : FrameworkResult) :
    (r.successful = true →
      run_single_test_method m d (.ran r) =
        { method := m, status := "pass", duration := d,
          error := none, traceback_str := none })
  ∧ (r.successful = false → ∀ f fs, r.failures = f :: fs →
      run_single_test_method m d (.ran r) =
        { method := m, status := "fail", duration := d,
          error := some f, traceback_str := some f })
  ∧ (r.successful = false → r.failures = [] → ∀ e es, r.errors = e :: es →
      run_single_test_method m d (.ran r) =
        { method := m, status := "error", duration := d,
          error := some e, traceback_str := some e })
  ∧ (r.successful = false → r.failures = [] → r.errors = [] →
      run_single_test_method m d (.ran r) =
        { method := m, status := "error", duration := d,
          error := some "Unknown test result state", traceback_str := none }) := by
  refine ⟨?_, ?_, ?_, ?_⟩
  · intro hs
    simp [run_single_test_method, hs]
  · intro hs f fs hf
    simp [run_single_test_method, hs, hf]
  · intro hs hf e es he
    simp [run_single_test_method, hs, hf, he]
  · intro hs hf he
    simp [run_single_test_method, hs, hf, he]

/-- Witness for C1: the four branches of the mapping at concrete
framework results. -/
theorem c1_witness :
    run_single_test_method mEx 1 (.ran ⟨true, [], []⟩) =
      { method := mEx, status := "pass", duration := 1,
        error := none, traceback_str := none }
  ∧ run_single_test_method mEx 1 (.ran ⟨false, ["tbF"], ["tbE"]⟩) =
      { method := mEx, status := "fail", duration := 1,
        error := some "tbF", traceback_str := some "tbF" }
  ∧ run_single_test_method mEx 1 (.ran ⟨false, [], ["tbE"]⟩) =
      { method := mEx, status := "error", duration := 1,
        error := some "tbE", traceback_str := some "tbE" }
  ∧ run_single_test_method mEx 1 (.ran ⟨false, [], []⟩) =
      { method := mEx, status := "error", duration := 1,
        error := some "Unknown test result state", traceback_str := none } :=
  ⟨(c1_framework_result_mapping mEx 1 ⟨true, [], []⟩).1 rfl,
   (c1_framework_result_mapping mEx 1 ⟨false, ["tbF"], ["tbE"]⟩).2.1 rfl "tbF" [] rfl,
   (c1_framework_result_mapping mEx 1 ⟨false, [], ["tbE"]⟩).2.2.1 rfl rfl "tbE" [] rfl,
   (c1_framework_result_mapping mEx 1 ⟨false, [], []⟩).2.2.2 rfl rfl rfl⟩

/-- C8: every MethodResult produced by run_single_test_method has status
pass if and only if both the error field and the traceback field are
absent; this covers every branch, including import failure and an
exception escaping the runner. -/
theorem c8_pass_iff_no_diagnostics (m : TestMethod) (d : Nat) (o : RunOutcome) :
    (run_single_test_method m d o).status = "pass" ↔
      (run_single_test_method m d o).error = none ∧
      (run_single_test_method m d o).traceback_str = none := by
  cases o with
  | importFailed msg => simp [run_single_test_method]
  | ran r =>
      obtain ⟨s, fl, el⟩ := r
      cases s <;> cases fl <;> cases el <;> simp [run_single_test_method]
  | raised msg trace => simp [run_single_test_method]

/-- C10: when the framework result is unsuccessful and has both failure
entries and error entries, the produced MethodResult has status fail with
diagnostics from the first failure entry; the error entries never produce
status error in that case. -/
theorem c10_failure_entries_win (m : TestMethod) (d : Nat) (r : FrameworkResult)
    (hs : r.successful = false) (f : String) (fs : List String)
    (hf : r.failures = f :: fs) (_he : r.errors ≠ []) :
    (run_single_test_method m d (.ran r)).status = "fail" ∧
    (run_single_test_method m d (.ran r)).error = some f ∧
    (run_single_test_method m d (.ran r)).traceback_str = some f ∧
    (run_single_test_method m d (.ran r)).status ≠ "error" := by
  simp [run_single_test_method, hs, hf]

/-- Witness for C10: a framework result carrying one failure and one
error yields the fail status taken from the failure entry. -/
theorem c10_witness :
    (FrameworkResult.mk false ["tbF"] ["tbE"]).successful = false
  ∧ (FrameworkResult.mk false ["tbF"] ["tbE"]).failures = "tbF" :: []
  ∧ (FrameworkResult.mk false ["tbF"] ["tbE"]).errors ≠ []
  ∧ (run_single_test_method mEx 1 (.ran ⟨false, ["tbF"], ["tbE"]⟩)).status = "fail" :=
  ⟨rfl, rfl, by simp,
   (c10_failure_entries_win mEx 1 ⟨false, ["tbF"], ["tbE"]⟩ rfl "tbF" [] rfl (by simp)).1⟩

/-- One add_result step preserves the counter invariant when the added
status is one of the three tallied strings. -/
theorem add_result_preserves_counts (tr : TestResult) (mr : MethodResult)
    (h : status_tallied mr) (hinv : counts_invariant tr) :
    counts_invariant (tr.add_result mr) := by
  obtain ⟨h1, h2⟩ := hinv
  rcases h with h | h | h <;>
    simp_all [TestResult.add_result, counts_invariant, h] <;> omega

/-- Folding add_result over any list of tallied results preserves the
counter invariant. -/
theorem foldl_add_result_counts (l : List MethodResult) (tr : TestResult)
    (h : ∀ mr ∈ l, status_tallied mr) (hinv : counts_invariant tr) :
    counts_invariant (l.foldl TestResult.add_result tr) := by
  induction l generalizing tr with
  | nil => exact hinv
  | cons mr rest ih =>
      exact ih _ (fun x hx => h x (List.mem_cons_of_mem _ hx))
        (add_result_preserves_counts _ _ (h mr (List.mem_cons_self _ _)) hinv)

/-- C2: for every sequence of addResult calls whose MethodResult statuses
are each pass, fail, or error, after each call the aggregate satisfies
total = passed + failed + errors = number of recorded results; the state
after the n-th call is the fold of add_result over the first n results
starting from a fresh TestResult. -/
theorem c2_counter_invariant (mrs : List MethodResult)
    (h : ∀ mr ∈ mrs, status_tallied mr) (n : Nat) :
    ((mrs.take n).foldl TestResult.add_result TestResult.new).total =
      ((mrs.take n).foldl TestResult.add_result TestResult.new).passed +
      ((mrs.take n).foldl TestResult.add_result TestResult.new).failed +
      ((mrs.take n).foldl TestResult.add_result TestResult.new).errors ∧
    ((mrs.take n).foldl TestResult.add_result TestResult.new).total =
      ((mrs.take n).foldl TestResult.add_result TestResult.new).method_results.length := by
  exact foldl_add_result_counts _ _
    (fun mr hmr => h mr (List.take_subset n mrs hmr))
    ⟨rfl, rfl⟩

/-- Witness for C2: a concrete pass/fail/error sequence keeps the
counters consistent after the third call. -/
theorem c2_witness :
    (∀ mr ∈ [mrEx "pass", mrEx "fail", mrEx "error"], status_tallied mr)
  ∧ (([mrEx "pass", mrEx "fail", mrEx "error"].take 3).foldl
        TestResult.add_result TestResult.new).total =
      (([mrEx "pass", mrEx "fail", mrEx "error"].take 3).foldl
        TestResult.add_result TestResult.new).method_results.length :=
  ⟨by simp [status_tallied, mrEx],
   (c2_counter_invariant [mrEx "pass", mrEx "fail", mrEx "error"]
     (by simp [status_tallied, mrEx]) 3).2⟩

/-- C3 counterexample: the claim says the lint command exits 1 when
run_lint returns -1, but line 1370 computes `1 if violation_count > 0
else 0`, so the exit code at -1 is 0. -/
theorem c3_counterexample :
    lint_command_exit (-1) = 0 ∧ lint_command_exit (-1) ≠ 1 := by
  decide

/-- C3 amended: the test-command exit code is 0 iff no test failed, no
test errored, and lint was not marked failed, and is 1 otherwise; lint is
considered failed exactly when run_lint returns a positive violation
count, so the lint command exits 0 (not 1) when run_lint returns -1, and
the check command does not mark lint failed at -1. -/
theorem c3_exit_code_combination (failed errors : Nat) (lint_failed : Bool) (v : Int) :
    (final_exit failed errors lint_failed = 0 ↔
      failed = 0 ∧ errors = 0 ∧ lint_failed = false)
  ∧ (final_exit failed errors lint_failed = 0 ∨ final_exit failed errors lint_failed = 1)
  ∧ (lint_command_exit v = 1 ↔ 0 < v)
  ∧ (check_lint_failed v = true ↔ 0 < v)
  ∧ lint_command_exit (-1) = 0
  ∧ check_lint_failed (-1) = false := by
  refine ⟨?_, ?_, ?_, ?_, by decide, by decide⟩
  · cases lint_failed <;> simp [final_exit]

  · unfold final_exit
    split <;> simp
  · unfold lint_command_exit
    split <;> rename_i h <;> simp [h]
  · simp [check_lint_failed]

/-- C6: sys.path after safe_import_module returns equals its value before
the call, whether exec_module returned normally or raised; the file
directory is visible during the load exactly when it was not already
present, prepended in front of the untouched pre-existing entries. -/
theorem c6_sys_path_restored (path : List Path) (module_dir : Path) (exec_raised : Bool) :
    safe_import_sys_path_after path module_dir exec_raised = path
  ∧ (module_dir ∈ path → safe_import_sys_path_during path module_dir = path)
  ∧ (module_dir ∉ path → safe_import_sys_path_during path module_dir = module_dir :: path) := by
  refine ⟨?_, ?_, ?_⟩
  · unfold safe_import_sys_path_after
    by_cases h : module_dir ∈ path
    · simp [h]
    · cases exec_raised <;> simp [h, List.erase_cons_head]
  · intro h
    simp [safe_import_sys_path_during, h]
  · intro h
    simp [safe_import_sys_path_during, h]

/-- Witness for C6: restoration at a concrete path list, for a directory
not yet present and for one already present, on the raising path. -/
theorem c6_witness :
    ("b".data ∉ ["a".data, "c".data])
  ∧ ("a".data ∈ ["a".data, "c".data])
  ∧ safe_import_sys_path_after ["a".data, "c".data] "b".data true = ["a".data, "c".data]
  ∧ safe_import_sys_path_during ["a".data, "c".data] "b".data =
      ["b".data, "a".data, "c".data]
  ∧ safe_import_sys_path_during ["a".data, "c".data] "a".data = ["a".data, "c".data] :=
  ⟨by decide, by decide,
   (c6_sys_path_restored ["a".data, "c".data] "b".data true).1,
   (c6_sys_path_restored ["a".data, "c".data] "b".data true).2.2 (by decide),
   (c6_sys_path_restored ["a".data, "c".data] "a".data true).2.1 (by decide)⟩

/-- C7: load_config is total over all load outcomes and the degraded
branches agree: a missing file, an unreadable file, an unparseable
document (which is what an empty file produces, since an empty document
is not valid JSON), and the parsed empty object all yield the very same
Config, whose every field is the documented default. -/
theorem c7_load_config_defaults (msg msg2 : String) :
    load_config .fileMissing = Config.default
  ∧ load_config (.parseError msg) = Config.default
  ∧ load_config (.ioError msg2) = Config.default
  ∧ load_config (.parsed ConfigData.empty) = Config.default
  ∧ Config.default.test_patterns = default_test_patterns
  ∧ Config.default.test_groups = [("all", [])]
  ∧ Config.default.coverage_enabled = true
  ∧ Config.default.html_coverage = true
  ∧ Config.default.html_coverage_dir = "htmlcov" :=
  ⟨rfl, rfl, rfl, rfl, rfl, rfl, rfl, rfl, rfl⟩

/-- sorted(list(set(xs))) has no duplicate entries. -/
theorem sortedDedup_nodup (xs : List Path) : (sortedDedup xs).Nodup :=
  (List.perm_insertionSort _ _).nodup_iff.mpr (List.nodup_dedup xs)

/-- sorted(list(set(xs))) is strictly ascending in the lexicographic
order on paths. -/
theorem sortedDedup_sorted_lt (xs : List Path) :
    List.Sorted (fun a b : Path => a < b) (sortedDedup xs) :=
  (List.sorted_insertionSort _ _).lt_of_le (sortedDedup_nodup xs)

/-- C4: for every combination of inputs (explicit modules, group, test
type, or none) and every file-system oracle, the file list returned by
discover_tests contains no duplicates and is strictly ascending in the
lexicographic order on full paths. -/
theorem c4_discovery_sorted_nodup (fs : FileSystem) (test_type : Option String)
    (modules : Option (List Path)) (group : Option String) (config : Config)
    (search_path : Path) :
    (discover_tests fs test_type modules group config search_path).Nodup ∧
    List.Sorted (fun a b : Path => a < b)
      (discover_tests fs test_type modules group config search_path) := by
  have hsd : ∀ xs : List Path, (sortedDedup xs).Nodup ∧
      List.Sorted (fun a b : Path => a < b) (sortedDedup xs) :=
    fun xs => ⟨sortedDedup_nodup xs, sortedDedup_sorted_lt xs⟩
  have hnil : List.Nodup ([] : List Path) ∧
      List.Sorted (fun a b : Path => a < b) ([] : List Path) :=
    ⟨List.nodup_nil, List.sorted_nil⟩
  unfold discover_tests discover_files_by_modules get_test_files_by_type
  split
  · exact hsd _
  · split
    · dsimp only
      split
      · exact hnil
      · exact hsd _
    · split
      · split
        · exact hsd _
        · exact hnil
      · exact hsd _

/-- Pointwise agreement of the candidate loop with the spec cascade, for
a name whose first two candidate paths contain no "**" and whose third
candidate does (which holds for every genuine module name and search
path, since "**" cannot occur in a module name). -/
theorem try_candidates_eq_cascade (fs : FileSystem) (name search_path : Path)
    (h1 : pathContains (name ++ ".py".data) "**".data = false)
    (h2 : pathContains (path_join search_path (name ++ ".py".data)) "**".data = false)
    (h3 : pathContains (path_join (path_join search_path "**".data) (name ++ ".py".data))
      "**".data = true) :
    try_candidates fs (module_candidates name search_path) =
      first_hit_cascade fs name search_path := by
  simp only [module_candidates, try_candidates, first_hit_cascade, h1, h2, h3,
    Bool.false_eq_true, if_false, if_true]
  by_cases e1 : fs.pathExists (name ++ ".py".data) = true
  · simp [e1]
  · simp only [e1, if_false]
    by_cases e2 : fs.pathExists (path_join search_path (name ++ ".py".data)) = true
    · simp [e2]
    · simp only [e2, if_false]
      cases hg : (fs.glob (path_join (path_join search_path "**".data)
          (name ++ ".py".data))).isEmpty
      · simp [hg]
      · simp [hg, List.isEmpty_iff.mp hg]

/-- flatMap respects pointwise agreement on the members of the list. -/
theorem flatMap_congr_mem {α β : Type} (l : List α) (f g : α → List β)
    (h : ∀ a ∈ l, f a = g a) : l.flatMap f = l.flatMap g := by
  induction l with
  | nil => rfl
  | cons x xs ih =>
      simp only [List.flatMap_cons]
      rw [h x (List.mem_cons_self _ _), ih (fun a ha => h a (List.mem_cons_of_mem _ ha))]

/-- filter respects pointwise agreement on the members of the list. -/
theorem filter_congr_mem {α : Type} (l : List α) (p q : α → Bool)
    (h : ∀ a ∈ l, p a = q a) : l.filter p = l.filter q := by
  induction l with
  | nil => rfl
  | cons x xs ih =>
      simp only [List.filter_cons]
      rw [h x (List.mem_cons_self _ _), ih (fun a ha => h a (List.mem_cons_of_mem _ ha))]

/-- C5: for every non-empty list of module names (names and search path
free of the recursive-glob marker "**", as every genuine module name is),
discovery tries for each name, in order, the path name.py, the path
searchPath/name.py, and the recursive glob searchPath/**/name.py, emits
the first hit for that name, and warns exactly for the names with no
matching candidate. -/
theorem c5_module_discovery_cascade (fs : FileSystem) (module_names : List Path)
    (search_path : Path)
    (_hne : module_names ≠ [])
    (h1 : ∀ name ∈ module_names, pathContains (name ++ ".py".data) "**".data = false)
    (h2 : ∀ name ∈ module_names,
      pathContains (path_join search_path (name ++ ".py".data)) "**".data = false)
    (h3 : ∀ name ∈ module_names,
      pathContains (path_join (path_join search_path "**".data) (name ++ ".py".data))
        "**".data = true) :
    (∀ name ∈ module_names,
        try_candidates fs (module_candidates name search_path) =
          first_hit_cascade fs name search_path)
  ∧ discover_files_by_modules fs module_names search_path =
      sortedDedup (module_names.flatMap fun name => first_hit_cascade fs name search_path)
  ∧ module_warnings fs module_names search_path =
      module_names.filter fun name => (first_hit_cascade fs name search_path).isEmpty := by
  have hpt : ∀ name ∈ module_names,
      try_candidates fs (module_candidates name search_path) =
        first_hit_cascade fs name search_path :=
    fun name hm =>
      try_candidates_eq_cascade fs name search_path (h1 name hm) (h2 name hm) (h3 name hm)
  refine ⟨hpt, ?_, ?_⟩
  · unfold discover_files_by_modules
    rw [flatMap_congr_mem _ _ _ hpt]
  · unfold module_warnings
    exact filter_congr_mem _ _ _ (fun a ha => by rw [hpt a ha])

/-- Witness for C5: one concrete module name on a file system where only
mymod.py exists; discovery and the spec cascade coincide. -/
theorem c5_witness :
    (["mymod".data] ≠ ([] : List Path))
  ∧ (∀ name ∈ ["mymod".data], pathContains (name ++ ".py".data) "**".data = false)
  ∧ discover_files_by_modules fsW ["mymod".data] ".".data =
      sortedDedup (["mymod".data].flatMap fun name =>
        first_hit_cascade fsW name ".".data) :=
  ⟨by decide, by decide,
   (c5_module_discovery_cascade fsW ["mymod".data] ".".data
     (by decide) (by decide) (by decide) (by decide)).2.1⟩

/-- C9 counterexample: the claim quantifies over every configuration and
group name, but a group whose name is the empty string is falsy in the
`elif group:` guard of discover_tests, so discovery falls through to the
pattern strategies instead of the group's module list: with the empty
group name mapped to ["m"], the two calls return different file lists. -/
theorem c9_counterexample :
    cfgX.test_groups.lookup "" = some ["m".data] ∧
    discover_tests fsX none (some ["m".data]) none cfgX ".".data ≠
      discover_tests fsX none none (some "") cfgX ".".data := by
  refine ⟨rfl, ?_⟩
  decide

/-- C9 amended: for every module name M, search path, configuration, and
group name G that is a non-empty string, discover_tests with modules=[M]
returns the same file list as discover_tests with group=G when the
configuration maps G to [M]. -/
theorem c9_modules_group_agree (fs : FileSystem) (M : Path) (G : String)
    (config : Config) (search_path : Path)
    (hG : G ≠ "")
    (hmap : config.test_groups.lookup G = some [M]) :
    discover_tests fs none (some [M]) none config search_path =
      discover_tests fs none none (some G) config search_path := by
  have hr : resolve_test_group G config = [M] := by
    unfold resolve_test_group
    rw [hmap]
  have h1 : discover_tests fs none (some [M]) none config search_path =
      discover_files_by_modules fs [M] search_path := rfl
  have h2 : discover_tests fs none none (some G) config search_path =
      discover_files_by_modules fs [M] search_path := by
    unfold discover_tests
    rw [if_neg (show ¬ opt_list_truthy none = true by simp [opt_list_truthy])]
    rw [if_pos (show opt_str_truthy (some G) = true by
      simp [opt_str_truthy, bne_iff_ne, hG])]
    show (if (resolve_test_group ((some G).getD "") config).isEmpty = true then []
      else discover_files_by_modules fs (resolve_test_group ((some G).getD "") config)
        search_path) = discover_files_by_modules fs [M] search_path
    rw [show (some G).getD "" = G from rfl, hr]
    simp
  rw [h1, h2]

/-- Witness for C9 amended: the group "core" mapped to ["mymod"] yields
the same discovery as modules=["mymod"]. -/
theorem c9_witness :
    (("core" : String) ≠ "")
  ∧ cfgW.test_groups.lookup "core" = some ["mymod".data]
  ∧ discover_tests fsW none (some ["mymod".data]) none cfgW ".".data =
      discover_tests fsW none none (some "core") cfgW ".".data :=
  ⟨by decide, rfl,
   c9_modules_group_agree fsW "mymod".data "core" cfgW ".".data (by decide) rfl⟩

end Testrules
